import Mathlib

/-!
# Verification of the Asteroid Threat Simulation Engine

A shallow embedding, in Lean 4, of the algorithmic core of the `nasa2025`
repository: the impact-physics model (`src/supabaseClient.js`, class
`ImpactPhysics`), the defense planner (`src/defenseSystems.js`, class
`DefenseSystems`) and the orbital propagator (class `OrbitalMechanics`).

JavaScript numbers are modelled as exact real (`ℝ`) or rational (`ℚ`)
arithmetic; `ℚ` is used wherever every value flowing through a definition is
rational, so that the definition stays computable.  The JavaScript `NaN`
behaviour that matters to the planner (a formatted percentage string used as
a factor of a numeric product) is modelled explicitly by the `JSNum` type.
-/

namespace ImpactPhysics

/-- `this.constants.MEGATON_TNT` — Joules per megaton of TNT. -/
def MEGATON_TNT : ℚ := 4184000000000000

/-- `getMaterialProperty(composition, 'density')`: looks `composition` up in
`this.materialProperties` and falls back to `materialProperties.rock`
(density 3000) when the key is absent. -/
def materialDensity (composition : String) : ℚ :=
  if composition = "rock" then 3000
  else if composition = "iron" then 7800
  else if composition = "carbonaceous" then 2000
  else if composition = "ice" then 1000
  else 3000

/-- `calculateKineticEnergy(diameter, velocity, composition)`:
mass from a spherical volume at the material density (diameter km → radius m),
energy `0.5·m·v²` with velocity converted km/s → m/s. -/
noncomputable def calculateKineticEnergy (diameter velocity : ℝ)
    (composition : String) : ℝ :=
  let density : ℝ := (materialDensity composition : ℝ)
  let radius := (diameter * 1000) / 2
  let volume := (4 / 3) * Real.pi * radius ^ 3
  let mass := density * volume
  let velocityMS := velocity * 1000
  0.5 * mass * velocityMS ^ 2

/-- `calculateTorinoScale(diameter, probability, energy)`: a 0–9 rating by
nested threshold tests on probability and energy in megatons.  The
`diameter` argument is accepted (as in the source) but never read. -/
def calculateTorinoScale (diameter probability energy : ℚ) : ℕ :=
  let energyMT := energy / MEGATON_TNT
  if probability < 0.0001 then 0
  else if energyMT < 0.1 then 1
  else if energyMT < 10 then (if probability > 0.01 then 3 else 2)
  else if energyMT < 100 then (if probability > 0.01 then 5 else 4)
  else if energyMT < 1000 then (if probability > 0.01 then 7 else 6)
  else (if probability > 0.01 then 9 else 8)

/-- The Torino-like rating exactly as the spec sentence describes it: a
function of probability and impact energy alone; `probability < 0.0001`
gives 0, energy below 0.1 MT gives 1, and each successive energy band
(boundaries 10, 100, 1000 MT) gives the higher of its two values exactly
when `probability > 0.01`. -/
def torinoClaimRating (probability energy : ℚ) : ℕ :=
  let energyMT := energy / MEGATON_TNT
  if probability < 0.0001 then 0
  else if energyMT < 0.1 then 1
  else if energyMT < 10 then (if probability > 0.01 then 3 else 2)
  else if energyMT < 100 then (if probability > 0.01 then 5 else 4)
  else if energyMT < 1000 then (if probability > 0.01 then 7 else 6)
  else (if probability > 0.01 then 9 else 8)

/-- Closed-form value of the kinetic energy at the spec's worked example:
diameter 1 km, velocity 20 km/s, composition `'stony'` (not a key of
`materialProperties`, so density falls back to rock's 3000 kg/m³). -/
lemma kineticEnergy_stony_example :
    calculateKineticEnergy 1 20 "stony" = Real.pi * 1e20 := by
  have hd : materialDensity "stony" = 3000 := rfl
  unfold calculateKineticEnergy
  rw [hd]
  push_cast
  ring

end ImpactPhysics

namespace DefenseSystems

/-- A JavaScript number that may be NaN.  Finite values are modelled
exactly in `ℝ`; `nan` is the value produced, e.g., by multiplying a
non-numeric string. -/
inductive JSNum where
  | num (x : ℝ)
  | nan

/-- JavaScript `*` on two numbers: NaN is absorbing. -/
noncomputable def jsMul : JSNum → JSNum → JSNum
  | .num a, .num b => .num (a * b)
  | _, _ => .nan

open Classical in
/-- JavaScript `>` on two numbers: every comparison with NaN is false. -/
noncomputable def jsGt : JSNum → JSNum → Bool
  | .num a, .num b => decide (b < a)
  | _, _ => false

open Classical in
/-- JavaScript division of finite numbers.  `0/0` is NaN.  A nonzero
numerator over zero would be ±Infinity; that case cannot arise in this
program (the only zero divisor is the length of an empty threat list, in
which case the numerator is also 0) and is mapped to NaN as well. -/
noncomputable def jsDivNum (a b : ℝ) : JSNum :=
  if b = 0 then .nan else .num (a / b)

/-- Numeric value of a list of decimal digit characters. -/
def digitsVal (l : List Char) : ℕ :=
  l.foldl (fun a c => 10 * a + (c.toNat - 48)) 0

/-- Helper for the decimal grammar: given the leading digit run `intPart`
and the remainder of the string, accept an optional `'.'` followed by
digits only.  At least one digit must appear overall. -/
def parseAfterDigits (intPart : List Char) : List Char → Option ℚ
  | [] => if intPart = [] then none else some (digitsVal intPart)
  | c :: fracPart =>
      if c = '.' ∧ fracPart.all Char.isDigit = true ∧
          (intPart ≠ [] ∨ fracPart ≠ []) then
        some ((digitsVal intPart : ℚ) + (digitsVal fracPart : ℚ) / 10 ^ fracPart.length)
      else none

/-- Unsigned part of the decimal grammar `digits [. digits]`. -/
def parseUnsigned (l : List Char) : Option ℚ :=
  parseAfterDigits (l.takeWhile Char.isDigit) (l.dropWhile Char.isDigit)

/-- Full decimal grammar `[+|-] digits [. digits]` over a character list;
the empty string is the numeric literal 0 (as in ECMAScript `ToNumber`). -/
def parseDecimal : List Char → Option ℚ
  | [] => some 0
  | c :: rest =>
      if c = '-' then (parseUnsigned rest).map (fun q => -q)
      else if c = '+' then parseUnsigned rest
      else parseUnsigned (c :: rest)

/-- ECMAScript `ToNumber` applied to a string, restricted to the plain
decimal grammar (exponents, hex, `Infinity` and surrounding whitespace
never occur in the strings this program converts).  Any string that does
not match the grammar — in particular any string containing `'%'` —
converts to NaN. -/
noncomputable def jsStringToNumber (s : String) : JSNum :=
  match parseDecimal s.data with
  | some q => .num (q : ℝ)
  | none => .nan

/-- `Number.prototype.toFixed(1)` on a rational: a minus sign for negative
input, then the magnitude rounded to one decimal place, ties away from
zero (the ECMAScript "larger n" rule applied to the magnitude). -/
def jsToFixed1 (x : ℚ) : String :=
  if x < 0 then
    let n : ℕ := (⌊(-x) * 10 + 1 / 2⌋).toNat
    "-" ++ toString (n / 10) ++ "." ++ toString (n % 10)
  else
    let n : ℕ := (⌊x * 10 + 1 / 2⌋).toNat
    toString (n / 10) ++ "." ++ toString (n % 10)

/-- `Math.round`: round half toward positive infinity. -/
def jsMathRound (x : ℚ) : ℤ := ⌊x + 1 / 2⌋

/-- The five keys of `this.defenseMethods`, in insertion order (the order
`Object.keys` yields). -/
inductive MethodId where
  | KINETIC_IMPACTOR
  | GRAVITY_TRACTOR
  | NUCLEAR_DEVICE
  | LASER_ABLATION
  | ION_BEAM
deriving DecidableEq

/-- One entry of the fixed defense-method catalog. -/
structure DefenseMethod where
  name : String
  description : String
  effectiveness : ℚ
  cost : ℚ
  developmentTime : ℚ
  successRate : ℚ
  technologyReadiness : ℚ

/-- `this.defenseMethods`: the fixed catalog. -/
def defenseMethods : MethodId → DefenseMethod
  | .KINETIC_IMPACTOR =>
      { name := "Kinetic Impactor"
        description := "Spacecraft collides with asteroid to change its velocity"
        effectiveness := 0.7, cost := 500, developmentTime := 5
        successRate := 0.85, technologyReadiness := 9 }
  | .GRAVITY_TRACTOR =>
      { name := "Gravity Tractor"
        description := "Spacecraft uses gravity to slowly pull asteroid"
        effectiveness := 0.4, cost := 800, developmentTime := 8
        successRate := 0.95, technologyReadiness := 6 }
  | .NUCLEAR_DEVICE =>
      { name := "Nuclear Disruption"
        description := "Nuclear explosion to fragment or deflect asteroid"
        effectiveness := 0.9, cost := 2000, developmentTime := 3
        successRate := 0.75, technologyReadiness := 7 }
  | .LASER_ABLATION =>
      { name := "Laser Ablation"
        description := "Lasers vaporize asteroid surface to create thrust"
        effectiveness := 0.6, cost := 1200, developmentTime := 10
        successRate := 0.80, technologyReadiness := 4 }
  | .ION_BEAM =>
      { name := "Ion Beam Shepherd"
        description := "Ion engines directed at asteroid surface"
        effectiveness := 0.5, cost := 1500, developmentTime := 12
        successRate := 0.88, technologyReadiness := 3 }

/-- `Object.keys(this.defenseMethods)` in insertion order. -/
def methodCatalog : List MethodId :=
  [.KINETIC_IMPACTOR, .GRAVITY_TRACTOR, .NUCLEAR_DEVICE, .LASER_ABLATION, .ION_BEAM]

/-- An asteroid record as consumed by the planner.  The numeric fields are
always present in the records this application builds; `undefined` fields
are out of scope (JavaScript falsy defaults for the value 0 are modelled
in `calculateThreatScore`). -/
structure Asteroid where
  name : String
  diameter : ℚ
  velocity : ℚ
  composition : String
  impactProbability : ℚ
deriving DecidableEq

/-- `getDensity(composition)`: lookup of the lowercased composition with
fallback 3000 (`densities[...] || 3000`). -/
def getDensity (composition : String) : ℚ :=
  let c := composition.toLower
  if c = "stony" then 3000
  else if c = "iron" then 7800
  else if c = "carbonaceous" then 2000
  else if c = "metal" then 7800
  else if c = "rock" then 3000
  else if c = "ice" then 1000
  else 3000

/-- `calculateAsteroidMass`: spherical volume at the composition density,
radius in meters = diameter (km) × 500. -/
noncomputable def calculateAsteroidMass (asteroidData : Asteroid) : ℝ :=
  (getDensity asteroidData.composition : ℝ) *
    ((4 / 3) * Real.pi * ((asteroidData.diameter : ℝ) * 500) ^ 3)

/-- `calculateRequiredDeltaV`: two Earth radii over the time to impact in
seconds. -/
noncomputable def calculateRequiredDeltaV (timeToImpact : ℚ) : ℝ :=
  (6371000 * 2) / ((timeToImpact : ℝ) * 31536000)

/-- `calculateKineticDeflection`: DART-like momentum transfer with a 3.4×
enhancement factor. -/
noncomputable def calculateKineticDeflection (asteroidMass : ℝ) : ℝ :=
  (500 * 6000 * 3.4) / asteroidMass

/-- `calculateGravityTractorDeflection`. -/
noncomputable def calculateGravityTractorDeflection (asteroidMass : ℝ)
    (timeToImpact : ℚ) : ℝ :=
  ((6.67430e-11 * 20000) / 50 ^ 2) * ((timeToImpact : ℝ) * 31536000)

/-- `calculateNuclearDeflection`. -/
noncomputable def calculateNuclearDeflection (asteroidMass : ℝ) : ℝ :=
  Real.sqrt (2 * 1e15 * 0.1 / asteroidMass)

/-- `calculateLaserDeflection`. -/
noncomputable def calculateLaserDeflection (asteroidMass : ℝ)
    (timeToImpact : ℚ) : ℝ :=
  (((2 * 1e6 * 0.01) / (1000 * 9.81)) / asteroidMass) * ((timeToImpact : ℝ) * 31536000)

/-- `calculateIonBeamDeflection`. -/
noncomputable def calculateIonBeamDeflection (asteroidMass : ℝ)
    (timeToImpact : ℚ) : ℝ :=
  (((2 * 5e5 * 0.007) / (3000 * 9.81)) / asteroidMass) * ((timeToImpact : ℝ) * 31536000)

/-- `calculateTimeFactor`: stepped availability factor. -/
def calculateTimeFactor (timeToImpact : ℚ) : ℚ :=
  if timeToImpact ≥ 20 then 1
  else if timeToImpact ≥ 10 then 0.9
  else if timeToImpact ≥ 5 then 0.7
  else if timeToImpact ≥ 2 then 0.5
  else if timeToImpact ≥ 1 then 0.3
  else 0.1

/-- `calculateMissDistance` (the asteroid-velocity argument is accepted and
ignored, as in the source). -/
noncomputable def calculateMissDistance (deltaV : ℝ) (timeToImpact : ℚ) : ℝ :=
  deltaV * (timeToImpact : ℝ) * 31536000

open Classical in
/-- `generateRecommendation`. -/
noncomputable def generateRecommendation (achievableDeltaV requiredDeltaV : ℝ)
    (timeToImpact : ℚ) (method : DefenseMethod) : String :=
  let tr := toString method.technologyReadiness ++ "/10 readiness)"
  if achievableDeltaV ≥ requiredDeltaV then
    if timeToImpact > 15 then
      "Gravity tractor recommended - most reliable for long timeframe (" ++ tr
    else if timeToImpact > 5 then
      "Kinetic impactor recommended - proven technology (" ++ tr
    else if timeToImpact > 2 then
      "Nuclear disruption necessary - limited time available (" ++ tr
    else
      "Emergency measures required - consider evacuation (" ++ tr
  else
    "Combined approach required - no single method sufficient. Consider multiple kinetic impactors."

/-- The result object of `calculateDeflection`.  `requiredDeltaV`,
`achievableDeltaV` and `missDistance` are stored in the source as
display-formatted strings (`toExponential(2)` / `formatDistance`); the
numeric values are kept here because no code reads those strings back as
numbers.  `successProbability` IS kept as the formatted string, because
`selectBestMethod` and `calculateOverallSuccess` consume it.  The
`riskAssessment` field (a display object built from the formatted miss
distance) is read by no other code and is omitted. -/
structure Deflection where
  method : String
  description : String
  requiredDeltaV : ℝ
  achievableDeltaV : ℝ
  successProbability : String
  willMiss : Bool
  missDistance : ℝ
  timeRequired : ℚ
  cost : String
  technologyReadiness : ℚ
  recommendation : String

open Classical in
/-- `calculateDeflection(asteroidData, defenseMethod, timeToImpact)`.
The method id is an enumeration, so the `Unknown defense method` throw of
the source is unreachable here. -/
noncomputable def calculateDeflection (asteroidData : Asteroid)
    (defenseMethod : MethodId) (timeToImpact : ℚ) : Deflection :=
  let method := defenseMethods defenseMethod
  let asteroidMass := calculateAsteroidMass asteroidData
  let requiredDeltaV := calculateRequiredDeltaV timeToImpact
  let rawDeltaV : ℝ :=
    match defenseMethod with
    | .KINETIC_IMPACTOR => calculateKineticDeflection asteroidMass
    | .GRAVITY_TRACTOR => calculateGravityTractorDeflection asteroidMass timeToImpact
    | .NUCLEAR_DEVICE => calculateNuclearDeflection asteroidMass
    | .LASER_ABLATION => calculateLaserDeflection asteroidMass timeToImpact
    | .ION_BEAM => calculateIonBeamDeflection asteroidMass timeToImpact
  let achievableDeltaV := rawDeltaV * (method.effectiveness : ℝ)
  let successProbability := method.successRate * calculateTimeFactor timeToImpact
  let missDistance := calculateMissDistance achievableDeltaV timeToImpact
  let willMiss : Bool := decide (achievableDeltaV ≥ requiredDeltaV)
  { method := method.name
    description := method.description
    requiredDeltaV := requiredDeltaV
    achievableDeltaV := achievableDeltaV
    successProbability := jsToFixed1 (successProbability * 100) ++ "%"
    willMiss := willMiss
    missDistance := missDistance
    timeRequired := method.developmentTime
    cost := "$" ++ toString method.cost ++ "M"
    technologyReadiness := method.technologyReadiness
    recommendation := generateRecommendation achievableDeltaV requiredDeltaV timeToImpact method }

/-- `calculateThreatScore`, with the JavaScript `|| default` falsy
behaviour for fields holding 0. -/
def calculateThreatScore (asteroid : Asteroid) : ℚ :=
  let probability := if asteroid.impactProbability = 0 then 0 else asteroid.impactProbability
  let diameter := if asteroid.diameter = 0 then 0.1 else asteroid.diameter
  let velocity := if asteroid.velocity = 0 then 20 else asteroid.velocity
  probability * diameter ^ 2 * velocity ^ 2

/-- `calculateThreatLevel`. -/
def calculateThreatLevel (asteroid : Asteroid) : String :=
  let score := calculateThreatScore asteroid
  if score > 1000 then "CATASTROPHIC"
  else if score > 100 then "SEVERE"
  else if score > 10 then "HIGH"
  else if score > 1 then "MEDIUM"
  else "LOW"

/-- `prioritizeThreats`: `Array.prototype.sort` with comparator
`scoreB - scoreA`, i.e. a stable sort descending by threat score.  The
JavaScript sort mutates its argument in place; the returned list models
the caller's array after the call. -/
def prioritizeThreats (asteroidThreats : List Asteroid) : List Asteroid :=
  asteroidThreats.mergeSort
    (fun a b => decide (calculateThreatScore b ≤ calculateThreatScore a))

/-- One fold step of `selectBestMethod`: skip unaffordable methods, else
compute `deflection.successProbability * (willMiss ? 1 : 0.5) *
(technologyReadiness / 10)` — a product whose first factor is a formatted
percentage STRING, hence NaN — and keep the method only when the score
strictly exceeds the best so far. -/
noncomputable def selectStep (asteroid : Asteroid) (timeHorizon : ℚ)
    (availableBudget : ℚ) (best : Option MethodId × JSNum) (method : MethodId) :
    Option MethodId × JSNum :=
  let methodData := defenseMethods method
  if methodData.cost > availableBudget then best
  else
    let deflection := calculateDeflection asteroid method timeHorizon
    let score :=
      jsMul (jsMul (jsStringToNumber deflection.successProbability)
          (JSNum.num (if deflection.willMiss then 1 else 0.5)))
        (JSNum.num ((methodData.technologyReadiness : ℝ) / 10))
    if jsGt score best.2 then (some method, score) else best

/-- `selectBestMethod(asteroid, timeHorizon, availableBudget)`: fold over
the catalog starting from `bestMethod = null`, `bestScore = -1`. -/
noncomputable def selectBestMethod (asteroid : Asteroid) (timeHorizon : ℚ)
    (availableBudget : ℚ) : Option MethodId :=
  (methodCatalog.foldl (selectStep asteroid timeHorizon availableBudget)
    (none, JSNum.num (-1))).1

/-- An entry of the defense-plan timeline. -/
structure TimelineEntry where
  year : ℤ
  asteroid : String
  method : MethodId
  cost : ℚ
  successProbability : String
  threatLevel : String

/-- The formatted resource-allocation buckets. -/
structure ResourceAllocation where
  research : String
  development : String
  deployment : String
  monitoring : String
  contingency : String

/-- `allocateResources(totalCost, availableBudget)`: fixed percentage
buckets, proportionally scaled down when `totalCost > availableBudget`,
then formatted as `$<rounded>M`. -/
def allocateResources (totalCost availableBudget : ℚ) : ResourceAllocation :=
  let scale := if totalCost > availableBudget then availableBudget / totalCost else 1
  let fmt := fun (x : ℚ) => "$" ++ toString (jsMathRound (x * scale)) ++ "M"
  { research := fmt (totalCost * 0.15)
    development := fmt (totalCost * 0.25)
    deployment := fmt (totalCost * 0.45)
    monitoring := fmt (totalCost * 0.10)
    contingency := fmt (totalCost * 0.05) }

/-- `parseFloat` on the unsigned part: longest prefix `digits [. digits]`;
`none` (NaN) when no digit is found. -/
def parseFloatUnsigned (l : List Char) : Option ℚ :=
  let ip := l.takeWhile Char.isDigit
  let rest := l.dropWhile Char.isDigit
  let fp := match rest with
    | c :: t => if c = '.' then t.takeWhile Char.isDigit else []
    | [] => []
  if ip = [] ∧ fp = [] then none
  else some ((digitsVal ip : ℚ) + (digitsVal fp : ℚ) / 10 ^ fp.length)

/-- `parseFloat`: parses the longest numeric prefix of the string
(exponents never arise in this program); NaN — modelled as `none` — when
no digits are found. -/
def jsParseFloat (s : String) : Option ℚ :=
  match s.data with
  | [] => none
  | c :: rest =>
      if c = '-' then (parseFloatUnsigned rest).map (fun q => -q)
      else if c = '+' then parseFloatUnsigned rest
      else parseFloatUnsigned (c :: rest)

/-- `calculateOverallSuccess(timeline)`: the number 0 for an empty
timeline, else the product of `parseFloat(successProbability)/100` over
the missions, formatted as a percentage string.  A NaN product (`none`,
unreachable for the strings this program builds) would render as `NaN%`. -/
def calculateOverallSuccess (timeline : List TimelineEntry) : Sum ℚ String :=
  if timeline.length = 0 then Sum.inl 0
  else
    let product : Option ℚ := timeline.foldl
      (fun acc mission =>
        match acc, jsParseFloat mission.successProbability with
        | some a, some p => some (a * (p / 100))
        | _, _ => none)
      (some 1)
    match product with
    | some q => Sum.inr (jsToFixed1 (q * 100) ++ "%")
    | none => Sum.inr "NaN%"

/-- The mutable accumulator of `generateDefensePlan`'s `forEach` loop. -/
structure PlanAcc where
  timeline : List TimelineEntry
  totalCost : ℚ
  remainingBudget : ℚ
  threatsMitigated : ℕ

/-- The result object of `generateDefensePlan`.  `threatsAfter` models the
caller's threats array after the call (`prioritizeThreats` sorts it in
place). -/
structure DefensePlan where
  timeline : List TimelineEntry
  resourceAllocation : ResourceAllocation
  successProbability : Sum ℚ String
  totalCost : ℚ
  remainingBudget : ℚ
  threatsMitigated : ℕ
  efficiency : JSNum
  threatsAfter : List Asteroid

/-- One iteration of the `forEach` over the prioritized threats:
`bestMethod && remainingBudget > 0` guards the commit, and the commit
itself is further guarded by `cost ≤ remainingBudget`. -/
noncomputable def planStep (currentYear : ℤ) (timeHorizon : ℚ)
    (acc : PlanAcc) (indexedThreat : ℕ × Asteroid) : PlanAcc :=
  let index := indexedThreat.1
  let threat := indexedThreat.2
  match selectBestMethod threat timeHorizon acc.remainingBudget with
  | none => acc
  | some bestMethod =>
      if acc.remainingBudget > 0 then
        let deflection := calculateDeflection threat bestMethod timeHorizon
        let cost := (defenseMethods bestMethod).cost
        if cost ≤ acc.remainingBudget then
          { timeline := acc.timeline ++
              [{ year := currentYear + index
                 asteroid := threat.name
                 method := bestMethod
                 cost := cost
                 successProbability := deflection.successProbability
                 threatLevel := calculateThreatLevel threat }]
            totalCost := acc.totalCost + cost
            remainingBudget := acc.remainingBudget - cost
            threatsMitigated := acc.threatsMitigated + 1 }
        else acc
      else acc

/-- `generateDefensePlan(asteroidThreats, budget, timeHorizon)`.
`new Date().getFullYear()` is an environment read, modelled by the
`currentYear` parameter. -/
noncomputable def generateDefensePlan (currentYear : ℤ)
    (asteroidThreats : List Asteroid) (budget timeHorizon : ℚ) : DefensePlan :=
  let prioritizedThreats := prioritizeThreats asteroidThreats
  let acc := prioritizedThreats.enum.foldl (planStep currentYear timeHorizon)
    { timeline := [], totalCost := 0, remainingBudget := budget, threatsMitigated := 0 }
  { timeline := acc.timeline
    resourceAllocation := allocateResources acc.totalCost budget
    successProbability := calculateOverallSuccess acc.timeline
    totalCost := acc.totalCost
    remainingBudget := acc.remainingBudget
    threatsMitigated := acc.threatsMitigated
    efficiency := jsMul
      (jsDivNum (acc.threatsMitigated : ℝ) (asteroidThreats.length : ℝ))
      (JSNum.num 100)
    threatsAfter := prioritizedThreats }

lemma jsMul_nan_left (x : JSNum) : jsMul .nan x = .nan := by
  cases x <;> rfl

lemma jsGt_nan_left (x : JSNum) : jsGt .nan x = false := by
  cases x <;> rfl

/-- A character list containing `'%'` is rejected by the unsigned decimal
grammar. -/
lemma parseUnsigned_percent (l : List Char) (h : ('%' : Char) ∈ l) :
    parseUnsigned l = none := by
  have hnip : ('%' : Char) ∉ l.takeWhile Char.isDigit := by
    intro hm
    exact absurd (List.mem_takeWhile_imp hm) (by decide)
  have hdrop : ('%' : Char) ∈ l.dropWhile Char.isDigit := by
    have hmem : ('%' : Char) ∈ l.takeWhile Char.isDigit ++ l.dropWhile Char.isDigit := by
      rw [List.takeWhile_append_dropWhile]
      exact h
    rcases List.mem_append.mp hmem with h1 | h2
    · exact absurd h1 hnip
    · exact h2
  unfold parseUnsigned
  rcases hd : l.dropWhile Char.isDigit with _ | ⟨c, fp⟩
  · rw [hd] at hdrop
    exact absurd hdrop (List.not_mem_nil _)
  · rw [hd] at hdrop
    simp only [parseAfterDigits]
    refine if_neg ?_
    rintro ⟨hdot, hall, -⟩
    subst hdot
    have hfp : ('%' : Char) ∈ fp := by
      rcases List.mem_cons.mp hdrop with h1 | h1
      · exact absurd h1 (by decide)
      · exact h1
    rw [List.all_eq_true] at hall
    exact absurd (hall _ hfp) (by decide)

/-- A character list containing `'%'` is rejected by the signed decimal
grammar. -/
lemma parseDecimal_percent (l : List Char) (h : ('%' : Char) ∈ l) :
    parseDecimal l = none := by
  rcases l with _ | ⟨c, rest⟩
  · exact absurd h (List.not_mem_nil _)
  · simp only [parseDecimal]
    by_cases hc : c = '-'
    · subst hc
      have hr : ('%' : Char) ∈ rest := by
        rcases List.mem_cons.mp h with h1 | h1
        · exact absurd h1 (by decide)
        · exact h1
      rw [if_pos rfl, parseUnsigned_percent _ hr]
      rfl
    · rw [if_neg hc]
      by_cases hc2 : c = '+'
      · subst hc2
        have hr : ('%' : Char) ∈ rest := by
          rcases List.mem_cons.mp h with h1 | h1
          · exact absurd h1 (by decide)
          · exact h1
        rw [if_pos rfl, parseUnsigned_percent _ hr]
      · rw [if_neg hc2]
        exact parseUnsigned_percent _ h

/-- ECMAScript `ToNumber` of any string with `"%"` appended is NaN. -/
lemma jsStringToNumber_append_percent (s : String) :
    jsStringToNumber (s ++ "%") = .nan := by
  unfold jsStringToNumber
  have h : ('%' : Char) ∈ (s ++ "%").data := by
    rw [String.data_append]
    refine List.mem_append.mpr (Or.inr ?_)
    rw [show ("%" : String).data = ['%'] from rfl]
    exact List.mem_singleton_self _
  rw [parseDecimal_percent _ h]

/-- The `successProbability` field of every deflection result is a
percentage string, so its numeric coercion is NaN. -/
lemma jsStringToNumber_deflection (a : Asteroid) (m : MethodId) (t : ℚ) :
    jsStringToNumber (calculateDeflection a m t).successProbability = .nan := by
  have hfield : (calculateDeflection a m t).successProbability =
      jsToFixed1 ((defenseMethods m).successRate * calculateTimeFactor t * 100) ++ "%" := rfl
  rw [hfield, jsStringToNumber_append_percent]

/-- Every fold step of `selectBestMethod` leaves the accumulator unchanged:
the score is NaN (string × number), and `NaN > bestScore` is false. -/
lemma selectStep_fixed (a : Asteroid) (t b : ℚ)
    (st : Option MethodId × JSNum) (m : MethodId) :
    selectStep a t b st m = st := by
  unfold selectStep
  by_cases hc : (defenseMethods m).cost > b
  · rw [if_pos hc]
  · rw [if_neg hc]
    simp only [jsStringToNumber_deflection, jsMul_nan_left, jsGt_nan_left]
    rw [if_neg]
    simp

lemma foldl_selectStep_fixed (a : Asteroid) (t b : ℚ) :
    ∀ (l : List MethodId) (st : Option MethodId × JSNum),
      l.foldl (selectStep a t b) st = st := by
  intro l
  induction l with
  | nil => intro st; rfl
  | cons m ms ih =>
      intro st
      rw [List.foldl_cons, selectStep_fixed]
      exact ih st

/-- `selectBestMethod` can never pick a method: `score` is always NaN. -/
lemma selectBestMethod_eq_none (a : Asteroid) (t b : ℚ) :
    selectBestMethod a t b = none := by
  unfold selectBestMethod
  rw [foldl_selectStep_fixed]

lemma planStep_fixed (y : ℤ) (t : ℚ) (acc : PlanAcc) (it : ℕ × Asteroid) :
    planStep y t acc it = acc := by
  simp [planStep, selectBestMethod_eq_none]

lemma foldl_planStep_fixed (y : ℤ) (t : ℚ) :
    ∀ (l : List (ℕ × Asteroid)) (acc : PlanAcc),
      l.foldl (planStep y t) acc = acc := by
  intro l
  induction l with
  | nil => intro acc; rfl
  | cons p ps ih =>
      intro acc
      rw [List.foldl_cons, planStep_fixed]
      exact ih acc

/-- Because `selectBestMethod` never selects, the plan's accumulator never
moves: empty timeline, zero cost, untouched budget. -/
lemma generateDefensePlan_fields (y : ℤ) (threats : List Asteroid) (b t : ℚ) :
    (generateDefensePlan y threats b t).timeline = [] ∧
    (generateDefensePlan y threats b t).totalCost = 0 ∧
    (generateDefensePlan y threats b t).remainingBudget = b ∧
    (generateDefensePlan y threats b t).threatsAfter = prioritizeThreats threats := by
  simp [generateDefensePlan, foldl_planStep_fixed]

end DefenseSystems

namespace OrbitalMechanics

/-- A `THREE.Vector3` value. -/
structure Vec3 where
  x : ℝ
  y : ℝ
  z : ℝ

/-- Euclidean length of a vector (`THREE.Vector3.length`). -/
noncomputable def norm3 (v : Vec3) : ℝ :=
  Real.sqrt (v.x ^ 2 + v.y ^ 2 + v.z ^ 2)

/-- `applyAxisAngle(new THREE.Vector3(1, 0, 0), θ)`: rotation about the X
axis by angle θ (right-handed, as THREE's quaternion rotation). -/
noncomputable def rotX (θ : ℝ) (v : Vec3) : Vec3 :=
  ⟨v.x, v.y * Real.cos θ - v.z * Real.sin θ, v.y * Real.sin θ + v.z * Real.cos θ⟩

/-- `applyAxisAngle(new THREE.Vector3(0, 0, 1), θ)`: rotation about the Z
axis by angle θ. -/
noncomputable def rotZ (θ : ℝ) (v : Vec3) : Vec3 :=
  ⟨v.x * Real.cos θ - v.y * Real.sin θ, v.x * Real.sin θ + v.y * Real.cos θ, v.z⟩

/-- The merged orbital parameters of a registered body, including the
derived `angularVelocity`. -/
structure Orbit where
  semiMajorAxis : ℝ
  eccentricity : ℝ
  inclination : ℝ
  argumentOfPeriapsis : ℝ
  longitudeOfAscendingNode : ℝ
  trueAnomaly : ℝ
  orbitalPeriod : ℝ
  clockwise : Bool
  angularVelocity : ℝ

/-- The caller-supplied `orbitParams` object: any subset of the fields may
be present; missing fields take `defaultParams` values. -/
structure OrbitParams where
  semiMajorAxis : Option ℝ := none
  eccentricity : Option ℝ := none
  inclination : Option ℝ := none
  argumentOfPeriapsis : Option ℝ := none
  longitudeOfAscendingNode : Option ℝ := none
  trueAnomaly : Option ℝ := none
  orbitalPeriod : Option ℝ := none
  clockwise : Option Bool := none

/-- `{ ...defaultParams, ...orbitParams }` followed by
`angularVelocity = 2π / orbitalPeriod`, negated when clockwise.  (For
`orbitalPeriod = 0` JavaScript would produce an infinite angular velocity
where real division yields 0; registration behaviour — all that the claims
touch — is identical.) -/
noncomputable def buildOrbit (p : OrbitParams) : Orbit :=
  let orbitalPeriod := p.orbitalPeriod.getD 100
  let clockwise := p.clockwise.getD false
  { semiMajorAxis := p.semiMajorAxis.getD 3
    eccentricity := p.eccentricity.getD 0
    inclination := p.inclination.getD 0
    argumentOfPeriapsis := p.argumentOfPeriapsis.getD 0
    longitudeOfAscendingNode := p.longitudeOfAscendingNode.getD 0
    trueAnomaly := p.trueAnomaly.getD 0
    orbitalPeriod := orbitalPeriod
    clockwise := clockwise
    angularVelocity :=
      if clockwise then -((2 * Real.pi) / orbitalPeriod)
      else (2 * Real.pi) / orbitalPeriod }

/-- The per-body registry entry: orbit data, current anomaly, accumulated
time, and the position of the attached `object3D` (the position sink). -/
structure Body where
  orbit : Orbit
  currentAnomaly : ℝ
  lastUpdate : ℝ
  position : Vec3

/-- `this.orbitalBodies`: a `Map` from id to body, modelled as an
association list in insertion order with unique keys. -/
def Registry := List (String × Body)

/-- `Map.get`. -/
def lookupReg : Registry → String → Option Body
  | [], _ => none
  | (k, b) :: rest, id => if k = id then some b else lookupReg rest id

/-- `Map.set`: replace in place when the key exists, else append. -/
def setReg : Registry → String → Body → Registry
  | [], id, b => [(id, b)]
  | (k, v) :: rest, id, b =>
      if k = id then (id, b) :: rest else (k, v) :: setReg rest id b

/-- `removeOrbitalBody(id)` — `Map.delete`: drop the entry when present,
silently do nothing otherwise. -/
def removeOrbitalBody : Registry → String → Registry
  | [], _ => []
  | (k, v) :: rest, id =>
      if k = id then rest else (k, v) :: removeOrbitalBody rest id

/-- `getOrbitalData(id)`: the registry entry, `undefined` (none) when
absent. -/
def getOrbitalData (reg : Registry) (id : String) : Option Body :=
  lookupReg reg id

open Classical in
/-- The position computation of `updateBodyPosition` (and of
`createOrbitPath`'s loop body): radius from the orbit equation at the
current phase angle, rotations applied in source order — inclination about
X, argument of periapsis about Z, longitude of ascending node about Z, each
skipped when the angle is exactly 0 — then translated by the Earth-center
position. -/
noncomputable def computePosition (earthCenter : Vec3) (orbit : Orbit)
    (currentAnomaly : ℝ) : Vec3 :=
  let a := orbit.semiMajorAxis
  let e := orbit.eccentricity
  let r := a * (1 - e * e) / (1 + e * Real.cos currentAnomaly)
  let p0 : Vec3 := ⟨r * Real.cos currentAnomaly, r * Real.sin currentAnomaly, 0⟩
  let p1 := if orbit.inclination ≠ 0 then rotX orbit.inclination p0 else p0
  let p2 := if orbit.argumentOfPeriapsis ≠ 0 then rotZ orbit.argumentOfPeriapsis p1 else p1
  let p3 := if orbit.longitudeOfAscendingNode ≠ 0 then
    rotZ orbit.longitudeOfAscendingNode p2 else p2
  ⟨p3.x + earthCenter.x, p3.y + earthCenter.y, p3.z + earthCenter.z⟩

/-- `updateBodyPosition(id)`: silent no-op for an unknown id, else write
the freshly computed position into the body's `object3D`. -/
noncomputable def updateBodyPosition (earthCenter : Vec3) (reg : Registry)
    (id : String) : Registry :=
  match lookupReg reg id with
  | none => reg
  | some b =>
      setReg reg id
        { b with position := computePosition earthCenter b.orbit b.currentAnomaly }

/-- `registerOrbitalBody(id, object3D, orbitParams)`: merge defaults,
derive the angular velocity, store the body with
`currentAnomaly = orbit.trueAnomaly` and `lastUpdate = 0`, then set the
initial position.  There is no validation and no failure path. -/
noncomputable def registerOrbitalBody (earthCenter : Vec3) (reg : Registry)
    (id : String) (objPosition : Vec3) (orbitParams : OrbitParams) : Registry :=
  updateBodyPosition earthCenter
    (setReg reg id
      { orbit := buildOrbit orbitParams
        currentAnomaly := (buildOrbit orbitParams).trueAnomaly
        lastUpdate := 0
        position := objPosition }) id

/-- The loop `while (currentAnomaly > 2π) currentAnomaly -= 2π`, as a
big-step relation from entry value to exit value. -/
inductive subLoopR : ℝ → ℝ → Prop
  | done (x : ℝ) : ¬ x > 2 * Real.pi → subLoopR x x
  | step (x y : ℝ) : x > 2 * Real.pi → subLoopR (x - 2 * Real.pi) y → subLoopR x y

/-- The loop `while (currentAnomaly < 0) currentAnomaly += 2π`. -/
inductive addLoopR : ℝ → ℝ → Prop
  | done (x : ℝ) : ¬ x < 0 → addLoopR x x
  | step (x y : ℝ) : x < 0 → addLoopR (x + 2 * Real.pi) y → addLoopR x y

/-- The two normalization loops of `updateOrbitalBody`, run in source
order. -/
def normalizeAnomalyR (x y : ℝ) : Prop :=
  ∃ z, subLoopR x z ∧ addLoopR z y

/-- One `updateOrbitalBody` step at the anomaly level:
`currentAnomaly += angularVelocity · deltaTime`, then both loops. -/
def stepAnomalyR (angularVelocity deltaTime ν ν' : ℝ) : Prop :=
  normalizeAnomalyR (ν + angularVelocity * deltaTime) ν'

/-- `updateOrbitalBody(id, deltaTime)`: silent no-op for an unknown id;
otherwise advance and normalize the anomaly, accumulate `lastUpdate`, and
recompute the position. -/
inductive updateOrbitalBodyR (earthCenter : Vec3) (reg : Registry) (id : String)
    (deltaTime : ℝ) : Registry → Prop
  | unknown : lookupReg reg id = none → updateOrbitalBodyR earthCenter reg id deltaTime reg
  | known (b : Body) (ν' : ℝ) :
      lookupReg reg id = some b →
      stepAnomalyR b.orbit.angularVelocity deltaTime b.currentAnomaly ν' →
      updateOrbitalBodyR earthCenter reg id deltaTime
        (updateBodyPosition earthCenter
          (setReg reg id
            { b with currentAnomaly := ν', lastUpdate := b.lastUpdate + deltaTime }) id)

/-- A run of `updateOrbitalBody` steps on one body's anomaly, one step per
element of `deltaTimes`. -/
inductive advanceChainR (angularVelocity : ℝ) : ℝ → List ℝ → ℝ → Prop
  | nil (ν : ℝ) : advanceChainR angularVelocity ν [] ν
  | cons (ν ν' νf : ℝ) (dt : ℝ) (rest : List ℝ) :
      stepAnomalyR angularVelocity dt ν ν' →
      advanceChainR angularVelocity ν' rest νf →
      advanceChainR angularVelocity ν (dt :: rest) νf

/-- `createOrbitPath(id, segments)`: `null` for an unknown id, else the
`segments+1` points at evenly spaced angles in `[0, 2π]`.  (For
`segments = 0` JavaScript's `0/0` would be NaN; real division yields 0;
no claim touches that degenerate call.) -/
noncomputable def createOrbitPath (earthCenter : Vec3) (reg : Registry)
    (id : String) (segments : ℕ) : Option (List Vec3) :=
  match lookupReg reg id with
  | none => none
  | some b =>
      some ((List.range (segments + 1)).map fun i =>
        computePosition earthCenter b.orbit
          (((i : ℝ) / (segments : ℝ)) * (2 * Real.pi)))

open Classical in
/-- `getOrbitalVelocity(id)`: the zero vector for an unknown id, else the
vis-viva-like speed (`gravitationalConstant = 1.0`) times the normalized
tangential direction.  (`Math.sqrt` of a negative would be NaN where
`Real.sqrt` yields 0; no claim reads the known-id branch.) -/
noncomputable def getOrbitalVelocity (reg : Registry) (id : String) : Vec3 :=
  match lookupReg reg id with
  | none => ⟨0, 0, 0⟩
  | some b =>
      let orbit := b.orbit
      let ν := b.currentAnomaly
      let r := orbit.semiMajorAxis * (1 - orbit.eccentricity * orbit.eccentricity) /
        (1 + orbit.eccentricity * Real.cos ν)
      let speed := Real.sqrt (1 * (2 / r - 1 / orbit.semiMajorAxis))
      let dir : Vec3 := ⟨-Real.sin ν, Real.cos ν, 0⟩
      let len := norm3 dir
      let len := if len = 0 then 1 else len
      ⟨dir.x / len * speed, dir.y / len * speed, dir.z / len * speed⟩

lemma lookupReg_setReg_self : ∀ (reg : Registry) (id : String) (b : Body),
    lookupReg (setReg reg id b) id = some b := by
  intro reg id b
  induction reg with
  | nil => simp [setReg, lookupReg]
  | cons kv rest ih =>
      obtain ⟨k, v⟩ := kv
      by_cases h : k = id
      · simp [setReg, lookupReg, h]
      · simp [setReg, lookupReg, h, ih]

lemma updateBodyPosition_known (center : Vec3) (reg : Registry) (id : String)
    (b : Body) (h : lookupReg reg id = some b) :
    updateBodyPosition center reg id =
      setReg reg id
        { b with position := computePosition center b.orbit b.currentAnomaly } := by
  simp [updateBodyPosition, h]

lemma updateBodyPosition_unknown (center : Vec3) (reg : Registry) (id : String)
    (h : lookupReg reg id = none) :
    updateBodyPosition center reg id = reg := by
  simp [updateBodyPosition, h]

/-- Registration always stores the body: there is no validation path. -/
lemma registerOrbitalBody_registers (center : Vec3) (reg : Registry)
    (id : String) (objPosition : Vec3) (params : OrbitParams) :
    ∃ b', lookupReg (registerOrbitalBody center reg id objPosition params) id = some b' := by
  unfold registerOrbitalBody
  rw [updateBodyPosition_known _ _ _ _ (lookupReg_setReg_self _ _ _)]
  exact ⟨_, lookupReg_setReg_self _ _ _⟩

lemma removeOrbitalBody_absent (id : String) : ∀ (reg : Registry),
    lookupReg reg id = none → removeOrbitalBody reg id = reg := by
  intro reg
  induction reg with
  | nil => intro h; rfl
  | cons kv rest ih =>
      obtain ⟨k, v⟩ := kv
      intro h
      by_cases hk : k = id
      · simp [lookupReg, hk] at h
      · simp only [lookupReg, if_neg hk] at h
        simp [removeOrbitalBody, hk, ih h]

lemma subLoopR_le {x z : ℝ} (h : subLoopR x z) : z ≤ 2 * Real.pi := by
  induction h with
  | done x hx => exact not_lt.mp hx
  | step x y hx hsub ih => exact ih

lemma addLoopR_bounds {x y : ℝ} (h : addLoopR x y) :
    0 ≤ y ∧ (y ≤ x ∨ y < 2 * Real.pi) := by
  induction h with
  | done x hx => exact ⟨not_lt.mp hx, Or.inl le_rfl⟩
  | step x y hx hadd ih =>
      obtain ⟨h0, hy⟩ := ih
      refine ⟨h0, Or.inr ?_⟩
      have hpi : (0 : ℝ) < 2 * Real.pi := by positivity
      rcases hy with h1 | h1
      · linarith
      · exact h1

/-- Both normalization loops land the anomaly in the CLOSED interval
`[0, 2π]` — the guard is `> 2π`, so the value 2π itself survives. -/
lemma normalizeAnomalyR_bounds {x y : ℝ} (h : normalizeAnomalyR x y) :
    0 ≤ y ∧ y ≤ 2 * Real.pi := by
  obtain ⟨z, hsub, hadd⟩ := h
  have hz := subLoopR_le hsub
  obtain ⟨h0, hy⟩ := addLoopR_bounds hadd
  refine ⟨h0, ?_⟩
  rcases hy with h1 | h1
  · linarith
  · linarith

lemma subLoopR_total_aux : ∀ (n : ℕ) (x : ℝ),
    x ≤ 2 * Real.pi + 2 * Real.pi * n → ∃ z, subLoopR x z := by
  intro n
  induction n with
  | zero =>
      intro x hx
      norm_num at hx
      exact ⟨x, subLoopR.done x (not_lt.mpr hx)⟩
  | succ n ih =>
      intro x hx
      by_cases hgt : x > 2 * Real.pi
      · obtain ⟨z, hz⟩ := ih (x - 2 * Real.pi) (by push_cast at hx ⊢; linarith)
        exact ⟨z, subLoopR.step x z hgt hz⟩
      · exact ⟨x, subLoopR.done x hgt⟩

lemma subLoopR_total (x : ℝ) : ∃ z, subLoopR x z := by
  have h2 : (0 : ℝ) < 2 * Real.pi := by positivity
  obtain ⟨n, hn⟩ := Archimedean.arch (x - 2 * Real.pi) h2
  rw [nsmul_eq_mul] at hn
  exact subLoopR_total_aux n x (by linarith)

lemma addLoopR_total_aux : ∀ (n : ℕ) (x : ℝ),
    -x ≤ 2 * Real.pi * n → ∃ y, addLoopR x y := by
  intro n
  induction n with
  | zero =>
      intro x hx
      norm_num at hx
      exact ⟨x, addLoopR.done x (not_lt.mpr (by linarith))⟩
  | succ n ih =>
      intro x hx
      by_cases hlt : x < 0
      · obtain ⟨y, hy⟩ := ih (x + 2 * Real.pi) (by push_cast at hx ⊢; linarith)
        exact ⟨y, addLoopR.step x y hlt hy⟩
      · exact ⟨x, addLoopR.done x hlt⟩

lemma addLoopR_total (x : ℝ) : ∃ y, addLoopR x y := by
  have h2 : (0 : ℝ) < 2 * Real.pi := by positivity
  obtain ⟨n, hn⟩ := Archimedean.arch (-x) h2
  rw [nsmul_eq_mul] at hn
  exact addLoopR_total_aux n x (by linarith)

/-- The normalization loops terminate on every real input. -/
lemma normalizeAnomalyR_total (x : ℝ) : ∃ y, normalizeAnomalyR x y := by
  obtain ⟨z, hz⟩ := subLoopR_total x
  obtain ⟨y, hy⟩ := addLoopR_total z
  exact ⟨y, z, hz, hy⟩

lemma subLoopR_sub_int {x z : ℝ} (h : subLoopR x z) :
    ∃ k : ℤ, z = x + 2 * Real.pi * k := by
  induction h with
  | done x hx => exact ⟨0, by push_cast; ring⟩
  | step x y hx hsub ih =>
      obtain ⟨k, hk⟩ := ih
      refine ⟨k - 1, ?_⟩
      push_cast
      linarith

lemma addLoopR_add_int {x y : ℝ} (h : addLoopR x y) :
    ∃ k : ℤ, y = x + 2 * Real.pi * k := by
  induction h with
  | done x hx => exact ⟨0, by push_cast; ring⟩
  | step x y hx hadd ih =>
      obtain ⟨k, hk⟩ := ih
      refine ⟨k + 1, ?_⟩
      push_cast
      linarith

/-- Normalization changes the anomaly by an integer multiple of 2π. -/
lemma normalizeAnomalyR_congr_int {x y : ℝ} (h : normalizeAnomalyR x y) :
    ∃ k : ℤ, y = x + 2 * Real.pi * k := by
  obtain ⟨z, hsub, hadd⟩ := h
  obtain ⟨k1, hk1⟩ := subLoopR_sub_int hsub
  obtain ⟨k2, hk2⟩ := addLoopR_add_int hadd
  refine ⟨k1 + k2, ?_⟩
  push_cast
  linarith

/-- A chain of advance steps moves the anomaly by `ω · Σ deltaTimes`, up to
an integer multiple of 2π. -/
lemma advanceChainR_closure {ω ν0 νf : ℝ} {dts : List ℝ}
    (h : advanceChainR ω ν0 dts νf) :
    ∃ k : ℤ, νf = ν0 + ω * dts.sum + 2 * Real.pi * k := by
  induction h with
  | nil ν => exact ⟨0, by simp⟩
  | cons ν ν' νf dt rest hstep hchain ih =>
      obtain ⟨k2, hk2⟩ := ih
      obtain ⟨k1, hk1⟩ := normalizeAnomalyR_congr_int hstep
      refine ⟨k1 + k2, ?_⟩
      rw [List.sum_cons]
      push_cast
      linear_combination hk1 + hk2

lemma norm3_rotX (θ : ℝ) (v : Vec3) : norm3 (rotX θ v) = norm3 v := by
  simp only [norm3, rotX]
  congr 1
  linear_combination (v.y ^ 2 + v.z ^ 2) * Real.sin_sq_add_cos_sq θ

lemma norm3_rotZ (θ : ℝ) (v : Vec3) : norm3 (rotZ θ v) = norm3 v := by
  simp only [norm3, rotZ]
  congr 1
  linear_combination (v.x ^ 2 + v.y ^ 2) * Real.sin_sq_add_cos_sq θ

lemma norm3_ite {c : Prop} [Decidable c] (f : Vec3 → Vec3)
    (hf : ∀ w, norm3 (f w) = norm3 w) (w : Vec3) :
    norm3 (if c then f w else w) = norm3 w := by
  split
  · exact hf w
  · rfl

/-- The written position of a body with valid elements lies at distance
`a(1−e²)/(1+e·cos ν)` from the origin: the rotations are isometries and
the Earth-center translation is by the origin. -/
lemma computePosition_norm (orbit : Orbit) (ν : ℝ)
    (ha : 0 < orbit.semiMajorAxis) (he0 : 0 ≤ orbit.eccentricity)
    (he1 : orbit.eccentricity < 1) :
    norm3 (computePosition ⟨0, 0, 0⟩ orbit ν) =
      orbit.semiMajorAxis * (1 - orbit.eccentricity ^ 2) /
        (1 + orbit.eccentricity * Real.cos ν) := by
  have hcos := Real.neg_one_le_cos ν
  have hden : 0 < 1 + orbit.eccentricity * Real.cos ν := by nlinarith
  have hr : 0 ≤ orbit.semiMajorAxis * (1 - orbit.eccentricity * orbit.eccentricity) /
      (1 + orbit.eccentricity * Real.cos ν) := by
    apply le_of_lt
    apply div_pos _ hden
    have h1 : 0 < 1 - orbit.eccentricity := by linarith
    have h2 : 0 < 1 + orbit.eccentricity := by linarith
    nlinarith [mul_pos h1 h2]
  simp only [computePosition, add_zero]
  rw [norm3_ite _ (norm3_rotZ _), norm3_ite _ (norm3_rotZ _), norm3_ite _ (norm3_rotX _)]
  simp only [norm3]
  rw [show (orbit.semiMajorAxis * (1 - orbit.eccentricity * orbit.eccentricity) /
        (1 + orbit.eccentricity * Real.cos ν) * Real.cos ν) ^ 2 +
      (orbit.semiMajorAxis * (1 - orbit.eccentricity * orbit.eccentricity) /
        (1 + orbit.eccentricity * Real.cos ν) * Real.sin ν) ^ 2 + (0 : ℝ) ^ 2 =
      (orbit.semiMajorAxis * (1 - orbit.eccentricity * orbit.eccentricity) /
        (1 + orbit.eccentricity * Real.cos ν)) ^ 2 from by
    linear_combination (orbit.semiMajorAxis * (1 - orbit.eccentricity * orbit.eccentricity) /
      (1 + orbit.eccentricity * Real.cos ν)) ^ 2 * Real.sin_sq_add_cos_sq ν]
  rw [Real.sqrt_sq hr]
  ring

/-- A sample registered body on the unit circular orbit, used by witnesses. -/
noncomputable def demoBody : Body :=
  { orbit :=
      { semiMajorAxis := 1
        eccentricity := 0
        inclination := 0
        argumentOfPeriapsis := 0
        longitudeOfAscendingNode := 0
        trueAnomaly := 0
        orbitalPeriod := 100
        clockwise := false
        angularVelocity := 2 * Real.pi / 100 }
    currentAnomaly := 0
    lastUpdate := 0
    position := ⟨0, 0, 0⟩ }

end OrbitalMechanics

/-- C1 (code_bug): in `selectBestMethod` the score
`deflection.successProbability * (willMiss ? 1 : 0.5) * (technologyReadiness/10)`
multiplies the formatted percentage STRING (e.g. `"76.5%"`) by numbers, so
the score is NaN for every method, `score > bestScore` is always false, and
no method is ever selected or committed — even when an affordable method
exists.  Evaluated here at a concrete threat, time horizon 10 years and
budget 500 (exactly the Kinetic Impactor's cost). -/
theorem C1_selectBestMethod_never_selects :
    DefenseSystems.selectBestMethod ⟨"Impactor-2025", 1, 20, "stony", 1/2⟩ 10 500 = none ∧
    (DefenseSystems.defenseMethods .KINETIC_IMPACTOR).cost ≤ 500 ∧
    (DefenseSystems.generateDefensePlan 2025
      [⟨"Impactor-2025", 1, 20, "stony", 1/2⟩] 500 10).timeline = [] := by
  refine ⟨DefenseSystems.selectBestMethod_eq_none _ _ _, ?_, ?_⟩
  · norm_num [DefenseSystems.defenseMethods]
  · exact (DefenseSystems.generateDefensePlan_fields _ _ _ _).1

/-- C4: for every list of threats, non-negative budget and time horizon, the
plan's `totalCost` is the sum of its timeline's mission costs, never exceeds
the input budget, and `remainingBudget` equals budget minus `totalCost`. -/
theorem C4_plan_never_exceeds_budget :
    ∀ (currentYear : ℤ) (threats : List DefenseSystems.Asteroid) (budget timeHorizon : ℚ),
      0 ≤ budget →
      (DefenseSystems.generateDefensePlan currentYear threats budget timeHorizon).totalCost =
        (((DefenseSystems.generateDefensePlan currentYear threats budget timeHorizon).timeline.map
          DefenseSystems.TimelineEntry.cost).sum) ∧
      (DefenseSystems.generateDefensePlan currentYear threats budget timeHorizon).totalCost ≤ budget ∧
      (DefenseSystems.generateDefensePlan currentYear threats budget timeHorizon).remainingBudget =
        budget - (DefenseSystems.generateDefensePlan currentYear threats budget timeHorizon).totalCost := by
  intro y threats b t hb
  obtain ⟨htl, htc, hrb, -⟩ := DefenseSystems.generateDefensePlan_fields y threats b t
  refine ⟨?_, ?_, ?_⟩
  · rw [htl, htc]
    rfl
  · rw [htc]
    exact hb
  · rw [hrb, htc]
    ring

/-- Witness for C4 at a singleton threat list, budget 500, horizon 10. -/
theorem C4_plan_never_exceeds_budget_witness :
    (0 : ℚ) ≤ 500 ∧
    ((DefenseSystems.generateDefensePlan 2025
        [⟨"Impactor-2025", 1, 20, "stony", 1/2⟩] 500 10).totalCost =
      (((DefenseSystems.generateDefensePlan 2025
        [⟨"Impactor-2025", 1, 20, "stony", 1/2⟩] 500 10).timeline.map
          DefenseSystems.TimelineEntry.cost).sum) ∧
    (DefenseSystems.generateDefensePlan 2025
        [⟨"Impactor-2025", 1, 20, "stony", 1/2⟩] 500 10).totalCost ≤ 500 ∧
    (DefenseSystems.generateDefensePlan 2025
        [⟨"Impactor-2025", 1, 20, "stony", 1/2⟩] 500 10).remainingBudget =
      500 - (DefenseSystems.generateDefensePlan 2025
        [⟨"Impactor-2025", 1, 20, "stony", 1/2⟩] 500 10).totalCost) :=
  ⟨by decide,
    C4_plan_never_exceeds_budget 2025 [⟨"Impactor-2025", 1, 20, "stony", 1/2⟩] 500 10 (by decide)⟩

/-- C10: `planDefense` sorts the caller's threats array in place
(`prioritizeThreats` calls `sort` on the argument itself): after any call
the caller's array is the stable descending sort by threat score — a
permutation of the input, pairwise non-increasing in score — and on a
concrete two-threat input the array really is reordered. -/
theorem C10_planDefense_sorts_threats_in_place :
    (∀ (currentYear : ℤ) (threats : List DefenseSystems.Asteroid) (budget timeHorizon : ℚ),
      (DefenseSystems.generateDefensePlan currentYear threats budget timeHorizon).threatsAfter =
        DefenseSystems.prioritizeThreats threats ∧
      (DefenseSystems.prioritizeThreats threats).Perm threats ∧
      (DefenseSystems.prioritizeThreats threats).Pairwise
        (fun x y => DefenseSystems.calculateThreatScore y ≤ DefenseSystems.calculateThreatScore x)) ∧
    DefenseSystems.prioritizeThreats
        [⟨"low", 1, 20, "stony", 1/100⟩, ⟨"high", 2, 20, "stony", 1/10⟩] =
      [⟨"high", 2, 20, "stony", 1/10⟩, ⟨"low", 1, 20, "stony", 1/100⟩] := by
  constructor
  · intro y threats b t
    refine ⟨(DefenseSystems.generateDefensePlan_fields y threats b t).2.2.2, ?_, ?_⟩
    · exact List.mergeSort_perm threats _
    · have hs := @List.sorted_mergeSort _
        (fun a b => decide (DefenseSystems.calculateThreatScore b ≤ DefenseSystems.calculateThreatScore a))
        (fun a b c hab hbc => by
          simp only [decide_eq_true_eq] at *
          exact le_trans hbc hab)
        (fun a b => by
          simp only [Bool.or_eq_true, decide_eq_true_eq]
          exact le_total _ _)
        threats
      exact hs.imp (fun h => of_decide_eq_true h)
  · unfold DefenseSystems.prioritizeThreats
    rw [List.mergeSort]
    simp [List.splitInTwo, List.merge, List.mergeSort, DefenseSystems.calculateThreatScore]
    norm_num

/-- C6: The Torino-like rating is a function of probability and impact energy
alone via nested threshold comparisons on a 0–9 scale, with exactly the
boundary values 0.1 MT, 10 MT, 100 MT and 1000 MT for energy and 0.0001 and
0.01 for probability: probability < 0.0001 gives 0; energy < 0.1 MT gives 1;
then each successive energy band gives the higher of its two values exactly
when probability > 0.01. -/
theorem C6_torino_rating_matches_claim :
    ∀ diameter probability energy : ℚ,
      ImpactPhysics.calculateTorinoScale diameter probability energy =
        ImpactPhysics.torinoClaimRating probability energy := by
  intro d p e
  rfl

/-- C3 (corrected): at diameter 1 km, velocity 20 km/s, composition `'stony'`,
`calculateKineticEnergy` follows the spec's formula chain with density
3000 kg/m³, radius 500 m and v = 20000 m/s, but the mass is
(4/3)π·500³·3000 = 5·10¹¹·π ≈ 1.57·10¹² kg (not 1.57·10⁹ kg), hence
E = π·10²⁰ ≈ 3.14·10²⁰ J (not 3.14·10¹⁷ J). -/
theorem C3_kinetic_energy_example_value :
    ImpactPhysics.calculateKineticEnergy 1 20 "stony" = Real.pi * 1e20 ∧
    (3.14e20 : ℝ) < ImpactPhysics.calculateKineticEnergy 1 20 "stony" ∧
    ImpactPhysics.calculateKineticEnergy 1 20 "stony" < 3.15e20 := by
  refine ⟨ImpactPhysics.kineticEnergy_stony_example, ?_, ?_⟩
  · rw [ImpactPhysics.kineticEnergy_stony_example]
    nlinarith [Real.pi_gt_d2]
  · rw [ImpactPhysics.kineticEnergy_stony_example]
    nlinarith [Real.pi_lt_d2]

/-- C3, counterexample to the claim as stated: the energy returned at the
worked example is not `0.5·1.57e9·4e8 = 3.14e17` J — it is π·10²⁰ J,
three orders of magnitude larger. -/
theorem C3_claimed_energy_refuted :
    ImpactPhysics.calculateKineticEnergy 1 20 "stony" ≠ 0.5 * 1.57e9 * 4e8 := by
  rw [ImpactPhysics.kineticEnergy_stony_example]
  nlinarith [Real.pi_gt_d2]

/-- C8: with composition (hence density) fixed, kinetic energy is homogeneous
of degree 2 in velocity and degree 3 in diameter: doubling the velocity
quadruples the energy and doubling the diameter multiplies it by 8. -/
theorem C8_kinetic_energy_scaling :
    ∀ (composition : String) (d v : ℝ), 0 < d → 0 < v →
      ImpactPhysics.calculateKineticEnergy d (2 * v) composition =
        4 * ImpactPhysics.calculateKineticEnergy d v composition ∧
      ImpactPhysics.calculateKineticEnergy (2 * d) v composition =
        8 * ImpactPhysics.calculateKineticEnergy d v composition := by
  intro composition d v _ _
  unfold ImpactPhysics.calculateKineticEnergy
  constructor <;> ring

/-- Witness for C8 at diameter 1 km, velocity 1 km/s, composition `'rock'`. -/
theorem C8_kinetic_energy_scaling_witness :
    (0 : ℝ) < 1 ∧
    (ImpactPhysics.calculateKineticEnergy 1 (2 * 1) "rock" =
        4 * ImpactPhysics.calculateKineticEnergy 1 1 "rock" ∧
      ImpactPhysics.calculateKineticEnergy (2 * 1) 1 "rock" =
        8 * ImpactPhysics.calculateKineticEnergy 1 1 "rock") :=
  ⟨zero_lt_one, C8_kinetic_energy_scaling "rock" 1 1 zero_lt_one zero_lt_one⟩

/-- C2 (corrected): `registerOrbitalBody` performs NO validation of the
supplied elements — there is no `InvalidOrbitError` and no failure path.
For every input, including semiMajorAxis ≤ 0, orbitalPeriod ≤ 0, or
eccentricity outside [0,1), the body is registered. -/
theorem C2_register_never_validates :
    ∀ (center : OrbitalMechanics.Vec3) (reg : OrbitalMechanics.Registry)
      (id : String) (objPos : OrbitalMechanics.Vec3)
      (params : OrbitalMechanics.OrbitParams),
      ∃ b', OrbitalMechanics.lookupReg
        (OrbitalMechanics.registerOrbitalBody center reg id objPos params) id = some b' :=
  fun center reg id objPos params =>
    OrbitalMechanics.registerOrbitalBody_registers center reg id objPos params

/-- C2, counterexample to the claim as stated: registering a body with
eccentricity 2 (outside [0,1)) raises no error and the body IS registered. -/
theorem C2_invalid_eccentricity_registered :
    (OrbitalMechanics.lookupReg
      (OrbitalMechanics.registerOrbitalBody ⟨0, 0, 0⟩ [] "apophis" ⟨0, 0, 0⟩
        { eccentricity := some 2 }) "apophis").isSome = true ∧
    ¬ ((2 : ℝ) < 1) := by
  constructor
  · obtain ⟨b, hb⟩ := OrbitalMechanics.registerOrbitalBody_registers
      ⟨0, 0, 0⟩ [] "apophis" ⟨0, 0, 0⟩ { eccentricity := some 2 }
    rw [hb]
    rfl
  · norm_num

/-- C5: for every registered body with valid elements (the data model's
invariant `a > 0`, `0 ≤ e < 1`), the point written by
`updateBodyPosition` lies at distance `a(1−e²)/(1+e·cos ν)` from the
origin, where ν is the body's current anomaly; and any chain of advance
steps whose time deltas sum to the orbital period T (with
`angularVelocity = ±2π/T`, as registration derives it) returns the anomaly
to its starting value modulo 2π. -/
theorem C5_position_radius_and_period_return :
    (∀ (reg : OrbitalMechanics.Registry) (id : String) (b : OrbitalMechanics.Body),
      OrbitalMechanics.lookupReg reg id = some b →
      0 < b.orbit.semiMajorAxis → 0 ≤ b.orbit.eccentricity → b.orbit.eccentricity < 1 →
      ∃ b', OrbitalMechanics.lookupReg
          (OrbitalMechanics.updateBodyPosition ⟨0, 0, 0⟩ reg id) id = some b' ∧
        OrbitalMechanics.norm3 b'.position =
          b.orbit.semiMajorAxis * (1 - b.orbit.eccentricity ^ 2) /
            (1 + b.orbit.eccentricity * Real.cos b.currentAnomaly)) ∧
    (∀ (ω T ν0 νf : ℝ) (dts : List ℝ),
      0 < T → (ω = 2 * Real.pi / T ∨ ω = -(2 * Real.pi / T)) → dts.sum = T →
      OrbitalMechanics.advanceChainR ω ν0 dts νf →
      ∃ k : ℤ, νf - ν0 = 2 * Real.pi * k) := by
  constructor
  · intro reg id b hb ha he0 he1
    refine ⟨{ b with position :=
      OrbitalMechanics.computePosition ⟨0, 0, 0⟩ b.orbit b.currentAnomaly }, ?_, ?_⟩
    · rw [OrbitalMechanics.updateBodyPosition_known _ _ _ _ hb]
      exact OrbitalMechanics.lookupReg_setReg_self _ _ _
    · exact OrbitalMechanics.computePosition_norm b.orbit b.currentAnomaly ha he0 he1
  · intro ω T ν0 νf dts hT hω hsum hchain
    have hT' : T ≠ 0 := ne_of_gt hT
    obtain ⟨k, hk⟩ := OrbitalMechanics.advanceChainR_closure hchain
    rw [hsum] at hk
    rcases hω with h | h
    · refine ⟨k + 1, ?_⟩
      rw [h] at hk
      have hωT : 2 * Real.pi / T * T = 2 * Real.pi := by field_simp
      rw [hωT] at hk
      push_cast
      linarith
    · refine ⟨k - 1, ?_⟩
      rw [h] at hk
      have hωT : -(2 * Real.pi / T) * T = -(2 * Real.pi) := by field_simp
      rw [hωT] at hk
      push_cast
      linarith

/-- Witness for C5: the unit circular orbit at anomaly 0, and a single full-
period advance step with ω = 2π/1, T = 1. -/
theorem C5_position_radius_and_period_return_witness :
    (∃ b', OrbitalMechanics.lookupReg
        (OrbitalMechanics.updateBodyPosition ⟨0, 0, 0⟩
          [("x", OrbitalMechanics.demoBody)] "x") "x" = some b' ∧
      OrbitalMechanics.norm3 b'.position =
        OrbitalMechanics.demoBody.orbit.semiMajorAxis *
          (1 - OrbitalMechanics.demoBody.orbit.eccentricity ^ 2) /
          (1 + OrbitalMechanics.demoBody.orbit.eccentricity *
            Real.cos OrbitalMechanics.demoBody.currentAnomaly)) ∧
    (∃ k : ℤ, ((0 : ℝ) + 2 * Real.pi / 1 * 1) - 0 = 2 * Real.pi * k) := by
  constructor
  · exact C5_position_radius_and_period_return.1 [("x", OrbitalMechanics.demoBody)] "x"
      OrbitalMechanics.demoBody rfl zero_lt_one le_rfl zero_lt_one
  · refine C5_position_radius_and_period_return.2 (2 * Real.pi / 1) 1 0
      ((0 : ℝ) + 2 * Real.pi / 1 * 1) [1] zero_lt_one (Or.inl rfl) (by simp) ?_
    refine OrbitalMechanics.advanceChainR.cons 0 _ _ 1 [] ?_
      (OrbitalMechanics.advanceChainR.nil _)
    refine ⟨(0 : ℝ) + 2 * Real.pi / 1 * 1,
      OrbitalMechanics.subLoopR.done _ ?_, OrbitalMechanics.addLoopR.done _ ?_⟩
    · rw [show (0 : ℝ) + 2 * Real.pi / 1 * 1 = 2 * Real.pi from by ring]
      exact lt_irrefl _
    · rw [show (0 : ℝ) + 2 * Real.pi / 1 * 1 = 2 * Real.pi from by ring]
      exact not_lt.mpr (by positivity)

/-- C7 (corrected): after every advance step the anomaly lies in the CLOSED
interval [0, 2π] — the `while (anomaly > 2π)` guard leaves the value 2π
itself unreduced, so the interval is closed at the right endpoint, not the
half-open [0, 2π) of the claim.  Every step lands there regardless of
starting anomaly or deltaTime, and the normalization loops terminate on
every input. -/
theorem C7_anomaly_in_closed_interval :
    (∀ ω dt ν : ℝ, ∃ ν', OrbitalMechanics.stepAnomalyR ω dt ν ν') ∧
    (∀ ω dt ν ν' : ℝ, OrbitalMechanics.stepAnomalyR ω dt ν ν' →
      0 ≤ ν' ∧ ν' ≤ 2 * Real.pi) := by
  constructor
  · intro ω dt ν
    exact OrbitalMechanics.normalizeAnomalyR_total _
  · intro ω dt ν ν' h
    exact OrbitalMechanics.normalizeAnomalyR_bounds h

/-- C7, counterexample to the claim as stated: when
`angularVelocity·deltaTime` lands the anomaly exactly on 2π (here ω = 2π/100
and deltaTime = 100 from anomaly 0), the `> 2π` guard does not fire and the
anomaly stays at 2π, which is NOT in the half-open interval [0, 2π). -/
theorem C7_two_pi_attained :
    OrbitalMechanics.stepAnomalyR (2 * Real.pi / 100) 100 0 (2 * Real.pi) ∧
    ¬ (2 * Real.pi < 2 * Real.pi) := by
  constructor
  · unfold OrbitalMechanics.stepAnomalyR
    rw [show (0 : ℝ) + 2 * Real.pi / 100 * 100 = 2 * Real.pi from by ring]
    exact ⟨2 * Real.pi, OrbitalMechanics.subLoopR.done _ (lt_irrefl _),
      OrbitalMechanics.addLoopR.done _ (not_lt.mpr (by positivity))⟩
  · exact lt_irrefl _

/-- Witness for C7: an existing step (totality at ω = dt = ν = 1) and the
bounds applied to the concrete step 0 + 0·0. -/
theorem C7_anomaly_in_closed_interval_witness :
    (∃ ν', OrbitalMechanics.stepAnomalyR 1 1 1 ν') ∧
    (0 ≤ ((0 : ℝ) + 0 * 0) ∧ ((0 : ℝ) + 0 * 0) ≤ 2 * Real.pi) := by
  constructor
  · exact C7_anomaly_in_closed_interval.1 1 1 1
  · refine C7_anomaly_in_closed_interval.2 0 0 0 ((0 : ℝ) + 0 * 0) ?_
    refine ⟨(0 : ℝ) + 0 * 0,
      OrbitalMechanics.subLoopR.done _ ?_, OrbitalMechanics.addLoopR.done _ ?_⟩
    · rw [show (0 : ℝ) + 0 * 0 = 0 from by ring]
      exact not_lt.mpr (by positivity)
    · rw [show (0 : ℝ) + 0 * 0 = 0 from by ring]
      exact lt_irrefl _

/-- C9: for an id not present in the registry, every per-body operation —
update/advance on that id, position write, orbit-path query, velocity
query, data query, removal — is a silent no-op: all are total functions
(nothing throws) that leave the registry, and hence every other body's
state, unchanged; removal of an absent id is idempotent. -/
theorem C9_unknown_id_noops :
    ∀ (center : OrbitalMechanics.Vec3) (reg : OrbitalMechanics.Registry)
      (id : String) (dt : ℝ) (segments : ℕ) (reg' : OrbitalMechanics.Registry),
      OrbitalMechanics.lookupReg reg id = none →
      (OrbitalMechanics.updateOrbitalBodyR center reg id dt reg' → reg' = reg) ∧
      OrbitalMechanics.updateBodyPosition center reg id = reg ∧
      OrbitalMechanics.createOrbitPath center reg id segments = none ∧
      OrbitalMechanics.getOrbitalVelocity reg id = ⟨0, 0, 0⟩ ∧
      OrbitalMechanics.getOrbitalData reg id = none ∧
      OrbitalMechanics.removeOrbitalBody reg id = reg ∧
      OrbitalMechanics.removeOrbitalBody (OrbitalMechanics.removeOrbitalBody reg id) id =
        OrbitalMechanics.removeOrbitalBody reg id := by
  intro center reg id dt segments reg' h
  refine ⟨?_, OrbitalMechanics.updateBodyPosition_unknown _ _ _ h, ?_, ?_, h,
    OrbitalMechanics.removeOrbitalBody_absent _ _ h, ?_⟩
  · intro hupd
    cases hupd with
    | unknown h2 => rfl
    | known b ν' hlook hstep => rw [h] at hlook; cases hlook
  · simp [OrbitalMechanics.createOrbitPath, h]
  · simp [OrbitalMechanics.getOrbitalVelocity, h]
  · rw [OrbitalMechanics.removeOrbitalBody_absent _ _ h,
      OrbitalMechanics.removeOrbitalBody_absent _ _ h]

/-- Witness for C9 on the empty registry and the absent id `"ghost"`. -/
theorem C9_unknown_id_noops_witness :
    ((OrbitalMechanics.updateOrbitalBodyR ⟨0, 0, 0⟩ [] "ghost" 0 [] → ([] : OrbitalMechanics.Registry) = []) ∧
    OrbitalMechanics.updateBodyPosition ⟨0, 0, 0⟩ [] "ghost" = [] ∧
    OrbitalMechanics.createOrbitPath ⟨0, 0, 0⟩ [] "ghost" 64 = none ∧
    OrbitalMechanics.getOrbitalVelocity [] "ghost" = ⟨0, 0, 0⟩ ∧
    OrbitalMechanics.getOrbitalData [] "ghost" = none ∧
    OrbitalMechanics.removeOrbitalBody [] "ghost" = [] ∧
    OrbitalMechanics.removeOrbitalBody (OrbitalMechanics.removeOrbitalBody [] "ghost") "ghost" =
      OrbitalMechanics.removeOrbitalBody [] "ghost") :=
  C9_unknown_id_noops ⟨0, 0, 0⟩ [] "ghost" 0 64 [] rfl
